import Mathlib

/-!
# Pagetalk `src/js/ui.js` — a shallow embedding

This file embeds the DOM-manipulation functions of `src/js/ui.js` of the
Pagetalk browser extension as pure Lean functions over explicit DOM state,
and proves properties of the embedded functions.

Conventions used throughout:

* An element's `classList` is a `List String`; `classList.toggle(c, force)`,
  `classList.add(c)` and `classList.remove(c)` become `classListToggle`,
  `classListAdd`, `classListRemove`.
* The `document` state a function touches is gathered in an explicit
  structure passed in; the function returns the updated state.
* `setTimeout(cb, d)` is modelled by returning a list of `Timer`s (a delay
  in milliseconds plus a `TimerAction` naming the scheduled callback);
  firing a timer is the function `runTimerAction`.
* External collaborators that are not part of `ui.js`
  (`window.MarkdownRenderer.render`, `escapeHtml`, `generateUniqueId`,
  `atob` / `decodeURIComponent`, the translations dictionary, and the
  callbacks supplied by `main.js`) are opaque parameters.
* JavaScript `===` on strings becomes decidable equality on `String`;
  truthiness of a string (`if (content)`) becomes `content ≠ ""` for a
  string known to be non-null.
-/

/-! ## DOM classList primitives -/

/-- `classList.add(c)`: a `DOMTokenList` holds no duplicates, so adding an
already present token is a no-op; otherwise the token goes to the end. -/
def classListAdd (cs : List String) (c : String) : List String :=
  if c ∈ cs then cs else cs ++ [c]

/-- `classList.remove(c)`: the token is removed from the list. -/
def classListRemove (cs : List String) (c : String) : List String :=
  cs.filter (fun x => x != c)

/-- `classList.toggle(c, force)` with an explicit `force` argument: add the
token when `force` is `true`, remove it when `force` is `false`. -/
def classListToggle (cs : List String) (c : String) (force : Bool) : List String :=
  if force then classListAdd cs c else classListRemove cs c

/-! ## The tab DOM (`switchTab`, `switchSettingsSubTab`, ui.js:34–58) -/

/-- A DOM element as the tab-switching code sees it: its `id`, its
`dataset.tab` and `dataset.subtab` attributes (absent attributes are
`none`), and its class list. -/
structure Elem where
  id : String
  dataTab : Option String
  dataSubtab : Option String
  classes : List String
deriving Repr, DecidableEq

/-- Whether the element's class list holds class `c`
(as `classList.contains` / a `.c` selector match would report). -/
def Elem.hasClass (e : Elem) (c : String) : Bool :=
  decide (c ∈ e.classes)

/-- `el.classList.toggle('active', force)` on an element. -/
def Elem.toggleActive (e : Elem) (force : Bool) : Elem :=
  { e with classes := classListToggle e.classes "active" force }

/-- The parts of the document the tab-switching functions touch.
`tabs`, `tabContents`, `settingsNavBtns` and `settingsSubContents` are the
four node collections `main.js` gathers into `elements` (so
`settingsNavBtns` holds every `.settings-nav-btn` of the document);
`others` stands for every other element of the document, which none of the
embedded operations reads or writes. -/
structure TabDom where
  tabs : List Elem
  tabContents : List Elem
  settingsNavBtns : List Elem
  settingsSubContents : List Elem
  others : List Elem
deriving Repr, DecidableEq

/-- `switchSettingsSubTab(subTabId, elements)` (ui.js:51–58): toggle
`active` on each settings nav button according to `dataset.subtab ===
subTabId`, and on each settings sub-content according to
`id === 'settings-' + subTabId`. -/
def switchSettingsSubTab (subTabId : String) (dom : TabDom) : TabDom :=
  { dom with
    settingsNavBtns :=
      dom.settingsNavBtns.map fun btn =>
        btn.toggleActive (decide (btn.dataSubtab = some subTabId)),
    settingsSubContents :=
      dom.settingsSubContents.map fun content =>
        content.toggleActive (decide (content.id = "settings-" ++ subTabId)) }

/-- The first two statements of `switchTab` (ui.js:35–36): toggle `active`
on each tab by `dataset.tab === tabId` and on each tab content by
`id === tabId`. -/
def toggleTabLists (tabId : String) (dom : TabDom) : TabDom :=
  { dom with
    tabs := dom.tabs.map fun tab =>
      tab.toggleActive (decide (tab.dataTab = some tabId)),
    tabContents := dom.tabContents.map fun content =>
      content.toggleActive (decide (content.id = tabId)) }

/-- `switchTab(tabId, elements, switchSettingsSubTab)` (ui.js:34–44):
toggle the `active` classes on tabs and tab contents; when
`tabId === 'settings'` and `document.querySelector('.settings-nav-btn.active')`
finds nothing, invoke the `switchSettingsSubTab` callback with `'general'`.
The callback is the argument `subTabCb`, exactly as in the source. -/
def switchTab (tabId : String) (dom : TabDom)
    (subTabCb : String → TabDom → TabDom) : TabDom :=
  let dom' : TabDom := toggleTabLists tabId dom
  if tabId = "settings" then
    match dom'.settingsNavBtns.find? (fun btn => btn.hasClass "active") with
    | none => subTabCb "general" dom'
    | some _ => dom'
  else dom'

/-! ### Basic lemmas about the class-list primitives -/

theorem hasClass_toggleActive (e : Elem) (f : Bool) :
    (e.toggleActive f).hasClass "active" = f := by
  by_cases h : "active" ∈ e.classes <;> cases f <;>
    simp [Elem.toggleActive, Elem.hasClass, classListToggle, classListAdd,
      classListRemove, List.mem_filter, List.mem_append, h]

theorem dataTab_toggleActive (e : Elem) (f : Bool) :
    (e.toggleActive f).dataTab = e.dataTab := rfl

theorem dataSubtab_toggleActive (e : Elem) (f : Bool) :
    (e.toggleActive f).dataSubtab = e.dataSubtab := rfl

theorem id_toggleActive (e : Elem) (f : Bool) :
    (e.toggleActive f).id = e.id := rfl

/-! ### Helper lemmas for the tab functions -/

theorem switchSettingsSubTab_navBtns_active (subTabId : String) (dom : TabDom) :
    ∀ b ∈ (switchSettingsSubTab subTabId dom).settingsNavBtns,
      (b.hasClass "active" = true ↔ b.dataSubtab = some subTabId) := by
  intro b hb
  simp only [switchSettingsSubTab, List.mem_map] at hb
  obtain ⟨b0, _, rfl⟩ := hb
  rw [hasClass_toggleActive, dataSubtab_toggleActive]
  simp

theorem switchSettingsSubTab_subContents_active (subTabId : String) (dom : TabDom) :
    ∀ c ∈ (switchSettingsSubTab subTabId dom).settingsSubContents,
      (c.hasClass "active" = true ↔ c.id = "settings-" ++ subTabId) := by
  intro c hc
  simp only [switchSettingsSubTab, List.mem_map] at hc
  obtain ⟨c0, _, rfl⟩ := hc
  rw [hasClass_toggleActive, id_toggleActive]
  simp

theorem switchSettingsSubTab_frame (subTabId : String) (dom : TabDom) :
    (switchSettingsSubTab subTabId dom).tabs = dom.tabs
    ∧ (switchSettingsSubTab subTabId dom).tabContents = dom.tabContents
    ∧ (switchSettingsSubTab subTabId dom).others = dom.others := by
  refine ⟨rfl, rfl, rfl⟩

theorem toggleTabLists_tabs_active (tabId : String) (dom : TabDom) :
    ∀ t ∈ (toggleTabLists tabId dom).tabs,
      (t.hasClass "active" = true ↔ t.dataTab = some tabId) := by
  intro t ht
  simp only [toggleTabLists, List.mem_map] at ht
  obtain ⟨t0, _, rfl⟩ := ht
  rw [hasClass_toggleActive, dataTab_toggleActive]
  simp

theorem toggleTabLists_contents_active (tabId : String) (dom : TabDom) :
    ∀ c ∈ (toggleTabLists tabId dom).tabContents,
      (c.hasClass "active" = true ↔ c.id = tabId) := by
  intro c hc
  simp only [toggleTabLists, List.mem_map] at hc
  obtain ⟨c0, _, rfl⟩ := hc
  rw [hasClass_toggleActive, id_toggleActive]
  simp

theorem switchTab_tabs_active (tabId : String) (dom : TabDom)
    (subTabCb : String → TabDom → TabDom)
    (hcb : ∀ s d, (subTabCb s d).tabs = d.tabs) :
    ∀ t ∈ (switchTab tabId dom subTabCb).tabs,
      (t.hasClass "active" = true ↔ t.dataTab = some tabId) := by
  intro t ht
  simp only [switchTab] at ht
  split at ht
  · split at ht
    · rw [hcb] at ht
      exact toggleTabLists_tabs_active tabId dom t ht
    · exact toggleTabLists_tabs_active tabId dom t ht
  · exact toggleTabLists_tabs_active tabId dom t ht

theorem switchTab_contents_active (tabId : String) (dom : TabDom)
    (subTabCb : String → TabDom → TabDom)
    (hcb : ∀ s d, (subTabCb s d).tabContents = d.tabContents) :
    ∀ c ∈ (switchTab tabId dom subTabCb).tabContents,
      (c.hasClass "active" = true ↔ c.id = tabId) := by
  intro c hc
  simp only [switchTab] at hc
  split at hc
  · split at hc
    · rw [hcb] at hc
      exact toggleTabLists_contents_active tabId dom c hc
    · exact toggleTabLists_contents_active tabId dom c hc
  · exact toggleTabLists_contents_active tabId dom c hc

theorem switchTab_others (tabId : String) (dom : TabDom)
    (subTabCb : String → TabDom → TabDom)
    (hcb : ∀ s d, (subTabCb s d).others = d.others) :
    (switchTab tabId dom subTabCb).others = dom.others := by
  simp only [switchTab]
  split
  · split
    · rw [hcb]
      rfl
    · rfl
  · rfl

theorem switchTab_of_navBtn_active (tabId : String) (dom : TabDom)
    (subTabCb : String → TabDom → TabDom)
    (hex : ∃ b ∈ dom.settingsNavBtns, b.hasClass "active" = true) :
    switchTab tabId dom subTabCb = toggleTabLists tabId dom := by
  have hsome : (List.find? (fun btn => btn.hasClass "active")
      (toggleTabLists tabId dom).settingsNavBtns).isSome := by
    rw [List.find?_isSome]
    obtain ⟨b, hb, hc⟩ := hex
    exact ⟨b, hb, hc⟩
  obtain ⟨b, hb⟩ := Option.isSome_iff_exists.mp hsome
  simp only [switchTab]
  split
  · rw [hb]
  · rfl

theorem switchTab_settings_no_active (dom : TabDom)
    (subTabCb : String → TabDom → TabDom)
    (hall : ∀ b ∈ dom.settingsNavBtns, b.hasClass "active" = false) :
    switchTab "settings" dom subTabCb
      = subTabCb "general" (toggleTabLists "settings" dom) := by
  have hnone : List.find? (fun btn => btn.hasClass "active")
      (toggleTabLists "settings" dom).settingsNavBtns = none := by
    rw [List.find?_eq_none]
    intro b hb
    simp [hall b hb]
  simp only [switchTab, if_pos rfl]
  rw [hnone]
  simp

/-! ### C1: the claim and its resolution -/

/-- The settings nav button for the `'general'` sub-tab, inactive. -/
def c1NavBtn : Elem :=
  { id := "nav-general", dataTab := none, dataSubtab := some "general",
    classes := ["settings-nav-btn"] }

/-- A document in which no settings nav button is active. -/
def c1Dom : TabDom :=
  { tabs := [], tabContents := [], settingsNavBtns := [c1NavBtn],
    settingsSubContents := [], others := [] }

/-- C1, counterexample. The claim says that after `switchTab(tabId, ...)`
no element other than the matching tab and tab content keeps or gains the
class `'active'`. But `switchTab('settings', ...)`, on a document with no
active settings nav button, calls `switchSettingsSubTab('general')`
(ui.js:38–43), which makes the general settings nav button — an element of
neither `elements.tabs` nor `elements.tabContents` — gain `'active'`:
before the call the sole nav button is inactive, after it it is active. -/
theorem switchTab_settings_navBtn_gains_active :
    c1Dom.settingsNavBtns.map (fun b => b.hasClass "active") = [false]
    ∧ (switchTab "settings" c1Dom switchSettingsSubTab).settingsNavBtns.map
        (fun b => b.hasClass "active") = [true] := by
  constructor <;> decide

/-- C1 (amended): after `switchTab(tabId, elements, switchSettingsSubTab)`
each element of `elements.tabs` has class `'active'` iff its `dataset.tab`
equals `tabId`, and each element of `elements.tabContents` has `'active'`
iff its `id` equals `tabId`; after `switchSettingsSubTab(subTabId,
elements)` each settings nav button is active iff its `dataset.subtab`
equals `subTabId` and each settings sub-content is active iff its `id`
equals `'settings-' + subTabId`. Elements outside the collection a call
operates on are left unchanged — except that `switchTab('settings', ...)`,
when no settings nav button has class `'active'`, additionally applies
`switchSettingsSubTab('general')` to the settings nav buttons and settings
sub-contents. -/
theorem switchTab_switchSettingsSubTab_active_classes
    (tabId subTabId : String) (dom : TabDom) :
    (∀ t ∈ (switchTab tabId dom switchSettingsSubTab).tabs,
        (t.hasClass "active" = true ↔ t.dataTab = some tabId))
    ∧ (∀ c ∈ (switchTab tabId dom switchSettingsSubTab).tabContents,
        (c.hasClass "active" = true ↔ c.id = tabId))
    ∧ (switchTab tabId dom switchSettingsSubTab).others = dom.others
    ∧ (∀ b ∈ (switchSettingsSubTab subTabId dom).settingsNavBtns,
        (b.hasClass "active" = true ↔ b.dataSubtab = some subTabId))
    ∧ (∀ c ∈ (switchSettingsSubTab subTabId dom).settingsSubContents,
        (c.hasClass "active" = true ↔ c.id = "settings-" ++ subTabId))
    ∧ (switchSettingsSubTab subTabId dom).tabs = dom.tabs
    ∧ (switchSettingsSubTab subTabId dom).tabContents = dom.tabContents
    ∧ (switchSettingsSubTab subTabId dom).others = dom.others
    ∧ (tabId ≠ "settings" →
        (switchTab tabId dom switchSettingsSubTab).settingsNavBtns
            = dom.settingsNavBtns
        ∧ (switchTab tabId dom switchSettingsSubTab).settingsSubContents
            = dom.settingsSubContents)
    ∧ ((∃ b ∈ dom.settingsNavBtns, b.hasClass "active" = true) →
        (switchTab tabId dom switchSettingsSubTab).settingsNavBtns
            = dom.settingsNavBtns
        ∧ (switchTab tabId dom switchSettingsSubTab).settingsSubContents
            = dom.settingsSubContents)
    ∧ (tabId = "settings" →
        (∀ b ∈ dom.settingsNavBtns, b.hasClass "active" = false) →
        (∀ b ∈ (switchTab tabId dom switchSettingsSubTab).settingsNavBtns,
            (b.hasClass "active" = true ↔ b.dataSubtab = some "general"))
        ∧ (∀ c ∈ (switchTab tabId dom switchSettingsSubTab).settingsSubContents,
            (c.hasClass "active" = true ↔ c.id = "settings-general"))) := by
  refine ⟨switchTab_tabs_active tabId dom _ (fun _ _ => rfl),
    switchTab_contents_active tabId dom _ (fun _ _ => rfl),
    switchTab_others tabId dom _ (fun _ _ => rfl),
    switchSettingsSubTab_navBtns_active subTabId dom,
    switchSettingsSubTab_subContents_active subTabId dom,
    rfl, rfl, rfl, ?_, ?_, ?_⟩
  · intro hne
    simp only [switchTab, if_neg hne]
    exact ⟨rfl, rfl⟩
  · intro hex
    rw [switchTab_of_navBtn_active tabId dom _ hex]
    exact ⟨rfl, rfl⟩
  · intro hs hall
    subst hs
    rw [switchTab_settings_no_active dom _ hall]
    constructor
    · exact switchSettingsSubTab_navBtns_active "general" _
    · intro c hc
      have := switchSettingsSubTab_subContents_active "general"
        (toggleTabLists "settings" dom) c hc
      simpa using this

/-! ## C2: the copy-button click handler (`addCopyButtonToCodeBlock`, ui.js:554–570)

The source wraps `decodeURIComponent(atob(encodedCode))` in the file's one
`try`/`catch` (ui.js:559–564); on a throw, and likewise when the
`data-code` attribute is absent, it falls back to the visible text of the
block's `<code>` child, or `''` when there is no such child. -/

/-- A code block as the click handler sees it: its `data-code` attribute
(`none` when absent) and the `innerText` of its `<code>` child (`none`
when the block has no `<code>` descendant). -/
structure CodeBlockElem where
  dataCode : Option String
  codeChildInnerText : Option String
deriving Repr, DecidableEq

/-- The text the click handler passes to `copyCodeToClipboardCallback`.
`decodeAtobUri` is the opaque host computation
`decodeURIComponent(atob(·))`; `none` stands for a throw, which the
handler's `try`/`catch` turns into the fallback. -/
def copyClickCodeText (decodeAtobUri : String → Option String)
    (block : CodeBlockElem) : String :=
  match block.dataCode with
  | some encodedCode =>
    match decodeAtobUri encodedCode with
    | some decoded => decoded
    | none => block.codeChildInnerText.getD ""
  | none => block.codeChildInnerText.getD ""

/-- C2: whenever base64 decoding of `data-code` throws, or the attribute is
absent, the text passed to `copyCodeToClipboardCallback` is the visible
text of the block's `<code>` child, or the empty string when no `<code>`
child exists. -/
theorem copyClickCodeText_fallback (decodeAtobUri : String → Option String)
    (block : CodeBlockElem)
    (h : block.dataCode = none
      ∨ ∃ enc, block.dataCode = some enc ∧ decodeAtobUri enc = none) :
    copyClickCodeText decodeAtobUri block
      = block.codeChildInnerText.getD "" := by
  rcases h with h | ⟨enc, h1, h2⟩
  · simp [copyClickCodeText, h]
  · simp [copyClickCodeText, h1, h2]

/-- C2, witness: a decoder that throws on the concrete attribute value
forces the fallback to the `<code>` child's visible text. -/
theorem copyClickCodeText_fallback_witness :
    copyClickCodeText (fun _ => none)
        { dataCode := some "Zm9v", codeChildInnerText := some "foo" }
      = "foo" :=
  (copyClickCodeText_fallback (fun _ => none)
    { dataCode := some "Zm9v", codeChildInnerText := some "foo" }
    (Or.inr ⟨"Zm9v", rfl, rfl⟩)).trans rfl

/-! ## The world: the document and window state of the remaining functions

Each function of ui.js other than the tab switching and the per-message
element code reads and writes a fixed handful of elements looked up from
its `elements` argument, plus `window.GeminiAPI`. `Option` fields model
DOM lookups that can be null. -/

/-- JavaScript `String.prototype.replace(pat, rep)` with a string
pattern: only the first occurrence is replaced. -/
def jsReplaceFirst (s pat rep : String) : String :=
  match s.splitOn pat with
  | [] => s
  | [_] => s
  | p :: ps => p ++ rep ++ String.intercalate pat ps

/-- The helper `_` (ui.js:20–26): look the key up in the translations
dictionary, fall back to the key itself when the entry is missing or falsy
(`translations[key] || key`), then substitute each `{placeholder}` in
insertion order (JS `replace`, so first occurrence only). -/
def translateKey (key : String) (replacements : List (String × String))
    (translations : String → Option String) : String :=
  let base :=
    match translations key with
    | some t => if t = "" then key else t
    | none => key
  replacements.foldl
    (fun acc pr => jsReplaceFirst acc ("\x7b" ++ pr.1 ++ "\x7d") pr.2) base

/-- JavaScript `parseFloat(x) || d`: the parsed number, except that a
parse failure (`NaN`, here `none`) and a parsed `0` (both falsy) yield
the default. -/
def jsFloatOr (parsed : Option ℚ) (d : ℚ) : ℚ :=
  match parsed with
  | none => d
  | some v => if v = 0 then d else v

/-- A text-bearing element with the style properties ui.js touches. -/
structure TextElem where
  textContent : String
  className : String
  display : String
  opacity : String
  transform : String
deriving Repr, DecidableEq

/-- The user-input textarea. `scrollHeight` is the content height the
source reads after resetting `style.height` to `'auto'`; `cssMinHeight` /
`cssMaxHeight` are the `parseFloat` results on the computed style (`none`
for `NaN`); `styleHeight` is the inline height (`none` for `'auto'`);
`listeners` the attached event listeners. -/
structure Textarea where
  scrollHeight : ℚ
  cssMinHeight : Option ℚ
  cssMaxHeight : Option ℚ
  styleHeight : Option ℚ
  overflowY : String
  listeners : List String
deriving Repr, DecidableEq

/-- The send button (`elements.sendMessage`); `listeners` holds tags for
the attached click callbacks. -/
structure SendButton where
  classes : List String
  title : String
  innerHTML : String
  listeners : List String
deriving Repr, DecidableEq

/-- The `.toast` element (ui.js:285–290). -/
structure ToastElem where
  textContent : String
  classes : List String
deriving Repr, DecidableEq

/-- The API-key input; only its `type` attribute is touched. -/
structure ApiKeyInput where
  inputType : String
deriving Repr, DecidableEq

/-- An eye icon; only its `style.display` is touched. -/
structure IconElem where
  display : String
deriving Repr, DecidableEq

/-- The mutable document and window state of the embedded functions.
`geminiAPI` models `window.GeminiAPI` (`none`: the global is absent)
holding its `currentAbortController` (`none`: null). The module itself
holds no state: ui.js declares no module-level mutable variable (its
lines 8–11 are commented out), so every embedded function is a pure map
on this structure. -/
structure World where
  connectionStatus : Option TextElem
  connectionIndicator : Option TextElem
  contextStatus : Option TextElem
  chatStatusMessage : Option TextElem
  toast : Option ToastElem
  userInput : Option Textarea
  toggleApiKey : Option Unit
  apiKeyInput : Option ApiKeyInput
  eyeIcon : Option IconElem
  eyeSlashIcon : Option IconElem
  sendMessage : SendButton
  isStreaming : Bool
  geminiAPI : Option (Option Unit)
deriving Repr, DecidableEq

/-- The callbacks ui.js passes to `setTimeout`, one constructor per call
site: ui.js:243 (connection-status hide), ui.js:301 (toast hide),
ui.js:356 (initial textarea resize), ui.js:353 (paste-triggered resize),
ui.js:506 and ui.js:509 (chat-status fade, then hide), ui.js:663 and
ui.js:693 (copy-feedback restorations). -/
inductive TimerAction
  | hideConnectionStatus (message : String)
  | hideToast
  | initialResize
  | pasteResize
  | chatStatusFade (message : String)
  | chatStatusHide (message : String)
  | restoreCodeCopyButton (originalHTML : String)
  | restoreMessageCopyButton (originalSVG : String)
deriving Repr, DecidableEq

/-- A pending `setTimeout`: its delay in milliseconds and its callback. -/
structure Timer where
  delayMs : Nat
  action : TimerAction
deriving Repr, DecidableEq

/-- `showConnectionStatus(message, type, elements)` (ui.js:236–250): null
guard, then set text, class and `display: block`; only for
`type === 'success'` schedule the guarded hide after 3000ms. -/
def showConnectionStatus (message ty : String) (w : World) :
    World × List Timer :=
  match w.connectionStatus with
  | none => (w, [])
  | some el =>
    let el2 : TextElem :=
      { el with
        textContent := message,
        className := "connection-status " ++ ty,
        display := "block" }
    ({ w with connectionStatus := some el2 },
     if ty = "success" then [⟨3000, .hideConnectionStatus message⟩] else [])

/-- `updateConnectionIndicator(isConnected, elements, currentTranslations)`
(ui.js:258–262). -/
def updateConnectionIndicator (isConnected : Bool)
    (translations : String → Option String) (w : World) : World :=
  match w.connectionIndicator with
  | none => w
  | some el =>
    { w with connectionIndicator := some { el with
          className := if isConnected then "connected" else "disconnected",
          textContent :=
            if isConnected then
              translateKey "connectionIndicatorConnected" [] translations
            else
              translateKey "connectionIndicatorDisconnected" [] translations } }

/-- `updateContextStatus(contextStatusKey, replacements, elements,
currentTranslations)` (ui.js:271–276). -/
def updateContextStatus (contextStatusKey : String)
    (replacements : List (String × String))
    (translations : String → Option String) (w : World) : World :=
  match w.contextStatus with
  | none => w
  | some el =>
    let pfx := translateKey "contextStatusPrefix" [] translations
    let statusText := translateKey contextStatusKey replacements translations
    { w with contextStatus := some { el with textContent := pfx ++ " " ++ statusText } }

/-- `showToast(message, type)` (ui.js:284–306): reuse the `.toast`
element or create one (either way the resulting element is the same,
because `className` is overwritten), set its text, reset its class to
`toast <type>`, add `show` (after `void toast.offsetWidth`, a pure
reflow), and schedule removal of `show` after 2000ms. -/
def showToast (message ty : String) (w : World) : World × List Timer :=
  let t : ToastElem :=
    { textContent := message,
      classes := classListAdd ["toast", ty] "show" }
  ({ w with toast := some t }, [⟨2000, .hideToast⟩])

/-- `resizeTextarea(elements)` (ui.js:312–341): null guard; reset the
height to `'auto'` and read `scrollHeight`; `minHeight` and `maxHeight`
are `parseFloat(...) || 32` and `parseFloat(...) || 160`; clamp
`scrollHeight` between them (`Math.max` with the minimum first, then
`Math.min` with the maximum); show the scrollbar exactly when
`scrollHeight > maxHeight`. (`paddingY` and `borderY` are computed by the
source but never used.) -/
def resizeTextarea (w : World) : World :=
  match w.userInput with
  | none => w
  | some ta =>
    let minHeight := jsFloatOr ta.cssMinHeight 32
    let maxHeight := jsFloatOr ta.cssMaxHeight 160
    let newHeight := min (max minHeight ta.scrollHeight) maxHeight
    let ta2 : Textarea :=
      { ta with
        styleHeight := some newHeight,
        overflowY := if ta.scrollHeight > maxHeight then "scroll" else "hidden" }
    { w with userInput := some ta2 }

/-- `setupAutoresizeTextarea(elements)` (ui.js:348–357): null guard;
attach the `input` and `paste` listeners; schedule the initial resize
with `setTimeout(..., 0)`. -/
def setupAutoresizeTextarea (w : World) : World × List Timer :=
  match w.userInput with
  | none => (w, [])
  | some ta =>
    ({ w with userInput := some { ta with listeners := ta.listeners ++ ["input", "paste"] } },
     [⟨0, TimerAction.initialResize⟩])

/-- Delivering an `input` event to the textarea: the listener installed
by `setupAutoresizeTextarea` (ui.js:352) calls `resizeTextarea`
synchronously and schedules nothing. -/
def fireUserInputInput (w : World) : World × List Timer :=
  match w.userInput with
  | some ta =>
    if ta.listeners.contains "input" then (resizeTextarea w, []) else (w, [])
  | none => (w, [])

/-- Delivering a `paste` event: the listener (ui.js:353) schedules the
resize with `setTimeout(..., 0)` instead of performing it synchronously. -/
def fireUserInputPaste (w : World) : World × List Timer :=
  match w.userInput with
  | some ta =>
    if ta.listeners.contains "paste" then (w, [⟨0, TimerAction.pasteResize⟩])
    else (w, [])
  | none => (w, [])

/-- `toggleApiKeyVisibility(elements)` (ui.js:474–487). -/
def toggleApiKeyVisibility (w : World) : World :=
  match w.toggleApiKey, w.apiKeyInput with
  | some _, some input =>
    let ty := if input.inputType = "password" then "text" else "password"
    let w' := { w with apiKeyInput := some { inputType := ty } }
    match w'.eyeIcon, w'.eyeSlashIcon with
    | some _, some _ =>
      { w' with
        eyeIcon := some ⟨if ty = "text" then "none" else "inline-block"⟩,
        eyeSlashIcon := some ⟨if ty = "text" then "inline-block" else "none"⟩ }
    | _, _ => w'
  | _, _ => w

/-- `showChatStatusMessage(message, type, elements)` (ui.js:495–516):
null guard; set text, class, `display: block`, full opacity and neutral
transform; only for `type === 'success'` schedule the fade after 2000ms. -/
def showChatStatusMessage (message ty : String) (w : World) :
    World × List Timer :=
  match w.chatStatusMessage with
  | none => (w, [])
  | some el =>
    let el2 : TextElem :=
      { el with
        textContent := message,
        className := "chat-status " ++ ty,
        display := "block", opacity := "1",
        transform := "translateY(0)" }
    ({ w with chatStatusMessage := some el2 },
     if ty = "success" then [⟨2000, .chatStatusFade message⟩] else [])

/-- `addEventListener`: a listener identical to an attached one is not
added twice. -/
def addListener (ls : List String) (l : String) : List String :=
  if l ∈ ls then ls else ls ++ [l]

/-- `removeEventListener`: drop the listener when attached. -/
def removeListener (ls : List String) (l : String) : List String :=
  ls.filter (fun x => x != l)

/-- The SVG markup `restoreSendButtonAndInput` assigns to the send
button's `innerHTML` (ui.js:456–460). -/
def sendButtonSVG : String :=
  "\n        <svg xmlns=\"http://www.w3.org/2000/svg\" width=\"16\" height=\"16\" fill=\"currentColor\" viewBox=\"0 0 16 16\">\n            <path d=\"M15.854.146a.5.5 0 0 1 .11.54l-5.819 14.547a.75.75 0 0 1-1.329.124l-3.178-4.995L.643 7.184a.75.75 0 0 1 .124-1.33L15.314.037a.5.5 0 0 1 .54.11v-.001ZM6.636 10.07l2.761 4.338L14.13 2.576 6.636 10.07Zm6.787-8.201L1.591 6.602l4.339 2.76 7.494-7.493Z\"/>\n        </svg>\n    "

/-- `restoreSendButtonAndInput(state, elements, currentTranslations,
sendUserMessageCallback, abortStreamingCallback)` (ui.js:448–468): return
at once unless `state.isStreaming`; otherwise clear the flag, drop the
`stop-streaming` class, restore the title and icon, swap the abort click
listener for the send one, and null `window.GeminiAPI
.currentAbortController` when the global exists and the controller is
set. (The `console.log` on ui.js:451 mutates nothing.) -/
def restoreSendButtonAndInput (translations : String → Option String)
    (w : World) : World :=
  if !w.isStreaming then w
  else
    { w with
      isStreaming := false,
      sendMessage :=
        { classes := classListRemove w.sendMessage.classes "stop-streaming",
          title := translateKey "sendMessageTitle" [] translations,
          innerHTML := sendButtonSVG,
          listeners := addListener
            (removeListener w.sendMessage.listeners "abortStreaming")
            "sendUserMessage" },
      geminiAPI :=
        match w.geminiAPI with
        | some (some _) => some none
        | g => g }

/-- Firing a pending timer: the body of the corresponding `setTimeout`
callback. The chat-status fade is unconditional and schedules its own
guarded hide step 300ms later (ui.js:506–514); both hide steps fire only
when the element's text still equals the message that scheduled them. A
callback whose element meanwhile disappeared is a no-op here; the two
copy-feedback restorations act on the feedback buttons (modelled
separately below) and leave this state unchanged. -/
def runTimerAction : TimerAction → World → World × List Timer
  | .hideConnectionStatus message, w =>
    (match w.connectionStatus with
     | some el =>
       if el.textContent = message then
         { w with connectionStatus := some { el with display := "none" } }
       else w
     | none => w, [])
  | .hideToast, w =>
    (match w.toast with
     | some t =>
       { w with toast := some { t with classes := classListRemove t.classes "show" } }
     | none => w, [])
  | .initialResize, w => (resizeTextarea w, [])
  | .pasteResize, w => (resizeTextarea w, [])
  | .chatStatusFade message, w =>
    match w.chatStatusMessage with
    | some el =>
      ({ w with chatStatusMessage := some { el with opacity := "0", transform := "translateY(5px)" } },
       [⟨300, .chatStatusHide message⟩])
    | none => (w, [])
  | .chatStatusHide message, w =>
    (match w.chatStatusMessage with
     | some el =>
       if el.textContent = message then
         { w with chatStatusMessage := some { el with display := "none" } }
       else w
     | none => w, [])
  | .restoreCodeCopyButton _, w => (w, [])
  | .restoreMessageCopyButton _, w => (w, [])

/-- A copy button as `showCopyCodeFeedback` sees it (ui.js:653–667). -/
structure FeedbackButton where
  innerHTML : String
  disabled : Bool
deriving Repr, DecidableEq

/-- The checkmark SVG `showCopyCodeFeedback` swaps in (ui.js:656–660). -/
def copyCodeCheckSVG : String :=
  "\n      <svg xmlns=\"http://www.w3.org/2000/svg\" width=\"14\" height=\"14\" fill=\"#34a853\" viewBox=\"0 0 16 16\">\n        <path d=\"M13.854 3.646a.5.5 0 0 1 0 .708l-7 7a.5.5 0 0 1-.708 0l-3.5-3.5a.5.5 0 1 1 .708-.708L6.5 10.293l6.646-6.647a.5.5 0 0 1 .708 0z\"/>\n      </svg>\n    "

/-- `showCopyCodeFeedback(buttonElement)` (ui.js:653–667): swap in the
checkmark, disable the button, and schedule restoration of the original
markup after 1500ms. -/
def showCopyCodeFeedback (b : FeedbackButton) : FeedbackButton × List Timer :=
  ({ innerHTML := copyCodeCheckSVG, disabled := true },
   [⟨1500, TimerAction.restoreCodeCopyButton b.innerHTML⟩])

/-- Restoring a code-copy button when its 1500ms timer fires
(ui.js:663–666). -/
def runCodeCopyRestore (originalHTML : String)
    (b : FeedbackButton) : FeedbackButton :=
  { innerHTML := originalHTML, disabled := false }

/-- A message-copy button as `showCopyMessageFeedback` sees it
(ui.js:673–700): its current `<svg>` child as markup (`none`: no `<svg>`
child) and its disabled flag. -/
structure MsgCopyButton where
  svg : Option String
  disabled : Bool
deriving Repr, DecidableEq

/-- The green checkmark `showCopyMessageFeedback` builds (ui.js:677–687). -/
def msgCopyCheckSVG : String :=
  "<svg viewBox=\"0 0 24 24\" width=\"14\" height=\"14\" fill=\"none\" stroke=\"#34a853\" stroke-width=\"2\"><path d=\"M20 6L9 17l-5-5\"/></svg>"

/-- `showCopyMessageFeedback(buttonElement)` (ui.js:673–700): a no-op
without an `<svg>` child; otherwise replace it by the checkmark, disable
the button, and schedule restoration of a copy of the original after
1500ms. -/
def showCopyMessageFeedback (b : MsgCopyButton) : MsgCopyButton × List Timer :=
  match b.svg with
  | none => (b, [])
  | some originalSVG =>
    ({ svg := some msgCopyCheckSVG, disabled := true },
     [⟨1500, TimerAction.restoreMessageCopyButton originalSVG⟩])

/-- Written after the spec's words, for comparison with the code: whether
a scheduled callback is "a toast/status fade-out". -/
def TimerAction.isToastOrStatusFadeOut : TimerAction → Bool
  | .hideConnectionStatus _ => true
  | .hideToast => true
  | .chatStatusFade _ => true
  | .chatStatusHide _ => true
  | .initialResize => false
  | .pasteResize => false
  | .restoreCodeCopyButton _ => false
  | .restoreMessageCopyButton _ => false

/-! ## Message elements (`addMessageToChat`, streaming update, buttons) -/

/-- A child node appended to a message element beside its
`innerHTML`-rendered content: the `.message-actions` group or the
streaming-cursor `<span>`. -/
inductive MsgNode
  | messageActions
  | streamingCursor
deriving Repr, DecidableEq

/-- A chat message element: its `data-message-id`, its classes, the HTML
last assigned to `innerHTML` (the message body), and the nodes appended
after that assignment. Assigning `innerHTML` replaces every child, so it
clears `appended`. The action-button mutations inside a `.code-block` of
the body act on the parsed DOM below the granularity of this model; the
body string itself is never altered after assignment. -/
structure MessageElem where
  messageId : Option String
  classes : List String
  innerHTML : String
  appended : List MsgNode
deriving Repr, DecidableEq

/-- `addMessageActionButtons(messageElement, content, ...)`
(ui.js:584–647): a no-op without `dataset.messageId` (ui.js:585–586) and
when a `.message-actions` group is already present (ui.js:588–590);
otherwise build the copy / regenerate / delete buttons and append the
group. The group's inner buttons only bind callbacks and translations,
so the group is the single node `MsgNode.messageActions` here. -/
def addMessageActionButtons (m : MessageElem) : MessageElem :=
  match m.messageId with
  | none => m
  | some _ =>
    if m.appended.contains MsgNode.messageActions then m
    else { m with appended := m.appended ++ [MsgNode.messageActions] }

/-- A child of a `<pre class="code-block">` element; the copy button
records its title, every other node an opaque tag. -/
inductive BlockChild
  | codeCopyButton (title : String)
  | otherNode (tag : String)
deriving Repr, DecidableEq

/-- A code block, for `addCopyButtonToCodeBlock`. -/
structure CodeBlock where
  children : List BlockChild
deriving Repr, DecidableEq

/-- Whether `block.querySelector('.code-copy-button')` finds a button. -/
def CodeBlock.hasCopyButton (b : CodeBlock) : Bool :=
  b.children.any fun c =>
    match c with
    | BlockChild.codeCopyButton _ => true
    | BlockChild.otherNode _ => false

/-- `addCopyButtonToCodeBlock(block, currentTranslations,
copyCodeToClipboardCallback)` (ui.js:524–573): return at once when the
block already holds a `.code-copy-button` (ui.js:526–528); otherwise
build the button — title `copyCode`, the copy SVG, the click handler of
`copyClickCodeText` — and append it. -/
def addCopyButtonToCodeBlock (translations : String → Option String)
    (b : CodeBlock) : CodeBlock :=
  if b.hasCopyButton then b
  else
    { children := b.children ++
        [BlockChild.codeCopyButton (translateKey "copyCode" [] translations)] }

/-- The `<div class="message-images">` block `addMessageToChat` builds
for a user message with images (ui.js:93–102); `esc` is the opaque
`escapeHtml` of utils.js, and the `imageAlt` translation takes the
1-based index. Each image contributes its `dataUrl`. -/
def imagesBlockHTML (esc : String → String)
    (translations : String → Option String) (images : List String) : String :=
  "<div class=\"message-images\">"
    ++ String.join (images.enum.map (fun p =>
        "<img class=\"message-image\" src=\"" ++ esc p.2
          ++ "\" alt=\""
          ++ esc (translateKey "imageAlt" [("index", toString (p.1 + 1))] translations)
          ++ "\" data-index=\"" ++ toString p.1
          ++ "\" data-url=\"" ++ esc p.2 ++ "\">"))
    ++ "</div>"

/-- `addMessageToChat(content, sender, options, ...)` (ui.js:73–134),
restricted to the message element it builds and returns. `content` is
the message text (`""` for JS `null` or empty — both falsy at
ui.js:104); `render` is the opaque `window.MarkdownRenderer.render`;
`newId` the value `generateUniqueId()` returned. A streaming call
returns the element empty (ui.js:87–89); otherwise `innerHTML` becomes
the images block (only for a user message with images) followed by the
rendered content, and the `addMessageActionButtons` callback appends the
action group. Insertion into `elements.chatMessages`, the image click
listeners, `renderDynamicContent` and scrolling concern other state. -/
def addMessageToChatElem (render esc : String → String)
    (translations : String → Option String)
    (content sender : String) (images : List String)
    (isStreaming : Bool) (newId : String) : MessageElem :=
  let base : MessageElem :=
    { messageId := some newId,
      classes := ["message", sender ++ "-message"],
      innerHTML := "", appended := [] }
  if isStreaming then base
  else
    let imagesHTML :=
      if sender = "user" ∧ images ≠ [] then imagesBlockHTML esc translations images
      else ""
    let contentHTML := if content = "" then "" else render content
    addMessageActionButtons { base with innerHTML := imagesHTML ++ contentHTML }

/-- `updateStreamingMessage(messageElement, content, ...)`
(ui.js:144–164): render the accumulated content, save the
`.message-actions` group, overwrite `innerHTML` (which drops every
appended node), re-append the saved group when it existed, and append a
fresh streaming cursor. `renderDynamicContent` is commented out in the
source; scrolling concerns other state. -/
def updateStreamingMessage (render : String → String) (content : String)
    (m : MessageElem) : MessageElem :=
  let hadActions := m.appended.contains MsgNode.messageActions
  { m with
    innerHTML := render content,
    appended :=
      (if hadActions then [MsgNode.messageActions] else [])
        ++ [MsgNode.streamingCursor] }

/-- `finalizeBotMessage(messageElement, finalContent, ...)`
(ui.js:176–196): remove the streaming cursor, overwrite `innerHTML` with
the final render (dropping every appended node), and re-attach the
action group via the `addMessageActionButtons` callback; the code
blocks of the new body get copy buttons, and the
`restoreSendButtonAndInput` callback then runs against the world. -/
def finalizeBotMessage (render : String → String) (finalContent : String)
    (m : MessageElem) : MessageElem :=
  let m1 :=
    { m with appended := m.appended.filter (fun n => n != MsgNode.streamingCursor) }
  addMessageActionButtons { m1 with innerHTML := render finalContent, appended := [] }

/-! ## Concrete states for witnesses -/

/-- A blank status element. -/
def sampleTextElem : TextElem :=
  { textContent := "", className := "", display := "", opacity := "",
    transform := "" }

/-- A textarea before any resize: content height 100, no parsable CSS
min/max height, automatic inline height, no listeners. -/
def sampleTextarea : Textarea :=
  { scrollHeight := 100, cssMinHeight := none, cssMaxHeight := none,
    styleHeight := none, overflowY := "", listeners := [] }

/-- A world with every element present and a streaming send button. -/
def sampleWorld : World :=
  { connectionStatus := some sampleTextElem,
    connectionIndicator := some sampleTextElem,
    contextStatus := some sampleTextElem,
    chatStatusMessage := some sampleTextElem,
    toast := none,
    userInput := some sampleTextarea,
    toggleApiKey := some (),
    apiKeyInput := some { inputType := "password" },
    eyeIcon := some { display := "" },
    eyeSlashIcon := some { display := "" },
    sendMessage :=
      { classes := ["stop-streaming"], title := "", innerHTML := "",
        listeners := ["abortStreaming"] },
    isStreaming := true,
    geminiAPI := some (some ()) }

/-- A world in which every nullable element lookup fails. -/
def emptyWorld : World :=
  { connectionStatus := none, connectionIndicator := none,
    contextStatus := none, chatStatusMessage := none, toast := none,
    userInput := none, toggleApiKey := none, apiKeyInput := none,
    eyeIcon := none, eyeSlashIcon := none,
    sendMessage := { classes := [], title := "", innerHTML := "", listeners := [] },
    isStreaming := false, geminiAPI := none }

/-! ## C3: null guards

The seven guards the claim enumerates all exist. Its universal sentence
("every function that dereferences an element looked up from its
`elements` argument guards it and returns without any mutation when the
element is absent") does not hold of the file as a whole, however:
`addMessageToChat` dereferences `elements.chatMessages` with no guard
(ui.js:84), `addThinkingAnimation` likewise (ui.js:220), `switchTab` and
`switchSettingsSubTab` iterate their collections unguarded, and
`restoreSendButtonAndInput` dereferences `elements.sendMessage`
unguarded (ui.js:454) — after having already written
`state.isStreaming = false` (ui.js:452). The refutation below models
that last function over a possibly-null send button. -/

/-- The state `restoreSendButtonAndInput` touches when
`elements.sendMessage` may itself be null: the caller's `state`
(`isStreaming`), the nullable send button, and `window.GeminiAPI`. -/
structure SendState where
  isStreaming : Bool
  sendMessage : Option SendButton
  geminiAPI : Option (Option Unit)
deriving Repr, DecidableEq

/-- `restoreSendButtonAndInput` (ui.js:448–468) executed over a
possibly-null `elements.sendMessage`, statement by statement: the guard
at ui.js:449 checks only `state.isStreaming`; ui.js:452 writes
`state.isStreaming = false`; ui.js:454 then dereferences
`elements.sendMessage.classList`, which on a null button throws a
TypeError. `Except.error s` is that throw, with `s` the state as
mutated up to the throwing statement; `Except.ok s` a normal return. -/
def restoreSendButtonAndInputNullable
    (translations : String → Option String)
    (s : SendState) : Except SendState SendState :=
  if !s.isStreaming then .ok s
  else
    let s1 := { s with isStreaming := false }
    match s1.sendMessage with
    | none => .error s1
    | some btn =>
      .ok { s1 with
            sendMessage := some
              { classes := classListRemove btn.classes "stop-streaming",
                title := translateKey "sendMessageTitle" [] translations,
                innerHTML := sendButtonSVG,
                listeners := addListener
                  (removeListener btn.listeners "abortStreaming")
                  "sendUserMessage" },
            geminiAPI :=
              (match s1.geminiAPI with
                | some (some _) => some none
                | g => g) }

/-- A streaming state whose send-button lookup failed. -/
def c3State : SendState :=
  { isStreaming := true, sendMessage := none, geminiAPI := none }

/-- C3, counterexample: the claim's universal sentence — every function
dereferencing an element looked up from `elements` guards it and
returns without any mutation when the element is absent — fails on
`restoreSendButtonAndInput`: with `state.isStreaming` true and
`elements.sendMessage` null, the function throws at the unguarded
dereference (ui.js:454) having already mutated `state.isStreaming` to
false (ui.js:452), so the state is not left unchanged. -/
theorem restoreSendButton_unguarded_dereference_mutates :
    restoreSendButtonAndInputNullable (fun _ => none) c3State
      = .error { isStreaming := false, sendMessage := none, geminiAPI := none }
    ∧ ({ isStreaming := false, sendMessage := none, geminiAPI := none } : SendState)
        ≠ c3State := by
  exact ⟨rfl, by decide⟩

/-- C3 (amended): each of the seven enumerated function/element pairs is
guarded — the function returns without any mutation when that element
is absent:
`showConnectionStatus` for `connectionStatus` (ui.js:237),
`updateConnectionIndicator` for `connectionIndicator` (ui.js:259),
`updateContextStatus` for `contextStatus` (ui.js:272), `resizeTextarea`
and `setupAutoresizeTextarea` for `userInput` (ui.js:314, 350),
`toggleApiKeyVisibility` for `toggleApiKey` or `apiKeyInput`
(ui.js:475), and `showChatStatusMessage` for `chatStatusMessage`
(ui.js:496); in each case the whole state is returned unchanged and no
timer is scheduled. -/
theorem null_guards_leave_state_unchanged
    (message ty contextStatusKey : String)
    (replacements : List (String × String))
    (translations : String → Option String) (isConnected : Bool)
    (w : World) :
    (w.connectionStatus = none → showConnectionStatus message ty w = (w, []))
    ∧ (w.connectionIndicator = none →
        updateConnectionIndicator isConnected translations w = w)
    ∧ (w.contextStatus = none →
        updateContextStatus contextStatusKey replacements translations w = w)
    ∧ (w.userInput = none → resizeTextarea w = w)
    ∧ (w.userInput = none → setupAutoresizeTextarea w = (w, []))
    ∧ (w.toggleApiKey = none ∨ w.apiKeyInput = none →
        toggleApiKeyVisibility w = w)
    ∧ (w.chatStatusMessage = none →
        showChatStatusMessage message ty w = (w, [])) := by
  refine ⟨?_, ?_, ?_, ?_, ?_, ?_, ?_⟩ <;> intro h
  · simp [showConnectionStatus, h]
  · simp [updateConnectionIndicator, h]
  · simp [updateContextStatus, h]
  · simp [resizeTextarea, h]
  · simp [setupAutoresizeTextarea, h]
  · rcases h with h | h
    · cases hb : w.apiKeyInput <;> simp [toggleApiKeyVisibility, h, hb]
    · cases hb : w.toggleApiKey <;> simp [toggleApiKeyVisibility, h, hb]
  · simp [showChatStatusMessage, h]

/-- C3, witness: on the world where every lookup fails, two of the
guarded calls are literal no-ops. -/
theorem null_guards_witness :
    showConnectionStatus "saved" "success" emptyWorld = (emptyWorld, [])
    ∧ toggleApiKeyVisibility emptyWorld = emptyWorld := by
  have h := null_guards_leave_state_unchanged "saved" "success" "k" []
    (fun _ => none) true emptyWorld
  exact ⟨h.1 rfl, h.2.2.2.2.2.1 (Or.inl rfl)⟩

/-! ## C5: success-only fade-outs, guarded by the message text -/

/-- C5: `showConnectionStatus` and `showChatStatusMessage` schedule a
timed fade-out only for type `'success'` (3000ms and 2000ms); for any
other type no timer is scheduled, so the message stays displayed (its
`display` remains `'block'`) until some later call changes it; and the
hide steps set `display` to `'none'` only when the element's text still
equals the message that scheduled the timer, so a newer message is never
set to `display: 'none'` by a stale timer. (For the chat status the
2000ms callback fades unconditionally and schedules the guarded hide
300ms later, ui.js:506–514; the `display: 'none'` write is guarded in
both functions.) -/
theorem status_fadeout_success_only_and_guarded (message ty : String)
    (w : World) (el : TextElem) :
    ((showConnectionStatus message ty w).2
      = if w.connectionStatus.isSome ∧ ty = "success"
        then [⟨3000, TimerAction.hideConnectionStatus message⟩] else [])
    ∧ ((showChatStatusMessage message ty w).2
      = if w.chatStatusMessage.isSome ∧ ty = "success"
        then [⟨2000, TimerAction.chatStatusFade message⟩] else [])
    ∧ (w.connectionStatus = some el →
        (showConnectionStatus message ty w).1.connectionStatus
          = some { el with
              textContent := message,
              className := "connection-status " ++ ty,
              display := "block" })
    ∧ (w.chatStatusMessage = some el →
        (showChatStatusMessage message ty w).1.chatStatusMessage
          = some { el with
              textContent := message,
              className := "chat-status " ++ ty,
              display := "block", opacity := "1",
              transform := "translateY(0)" })
    ∧ (w.connectionStatus = some el → el.textContent = message →
        (runTimerAction (TimerAction.hideConnectionStatus message) w).1
          = { w with connectionStatus := some { el with display := "none" } })
    ∧ (w.connectionStatus = some el → el.textContent ≠ message →
        (runTimerAction (TimerAction.hideConnectionStatus message) w).1 = w)
    ∧ (w.chatStatusMessage = some el →
        runTimerAction (TimerAction.chatStatusFade message) w
          = ({ w with chatStatusMessage := some { el with opacity := "0", transform := "translateY(5px)" } },
             [⟨300, TimerAction.chatStatusHide message⟩]))
    ∧ (w.chatStatusMessage = some el → el.textContent = message →
        (runTimerAction (TimerAction.chatStatusHide message) w).1
          = { w with chatStatusMessage := some { el with display := "none" } })
    ∧ (w.chatStatusMessage = some el → el.textContent ≠ message →
        (runTimerAction (TimerAction.chatStatusHide message) w).1 = w) := by
  refine ⟨?_, ?_, ?_, ?_, ?_, ?_, ?_, ?_, ?_⟩
  · cases hc : w.connectionStatus <;> simp [showConnectionStatus, hc]
  · cases hc : w.chatStatusMessage <;> simp [showChatStatusMessage, hc]
  · intro h
    simp [showConnectionStatus, h]
  · intro h
    simp [showChatStatusMessage, h]
  · intro h hm
    simp [runTimerAction, h, hm]
  · intro h hm
    simp [runTimerAction, h, hm]
  · intro h
    simp [runTimerAction, h]
  · intro h hm
    simp [runTimerAction, h, hm]
  · intro h hm
    simp [runTimerAction, h, hm]

/-- C5, witness: on the concrete world the success call schedules the
3000ms hide and a stale hide leaves a changed message untouched. -/
theorem status_fadeout_witness :
    (showConnectionStatus "ok" "success" sampleWorld).2
      = [⟨3000, TimerAction.hideConnectionStatus "ok"⟩]
    ∧ (runTimerAction (TimerAction.hideConnectionStatus "older") sampleWorld).1
      = sampleWorld := by
  have h := status_fadeout_success_only_and_guarded "ok" "success"
    sampleWorld sampleTextElem
  have h2 := status_fadeout_success_only_and_guarded "older" "success"
    sampleWorld sampleTextElem
  refine ⟨?_, h2.2.2.2.2.2.1 rfl (by decide)⟩
  have := h.1
  simpa [sampleWorld] using this

/-! ## C4: what `setTimeout` is used for -/

/-- C4, counterexample: the claim says every `setTimeout` in the file is
a toast/status fade-out. But `setupAutoresizeTextarea` (ui.js:356)
passes a textarea resize to `setTimeout(..., 0)`: the scheduled callback
is not a fade-out, and firing it mutates the textarea's height style —
it hides nothing, and every display/opacity field is untouched. -/
theorem setupAutoresizeTextarea_schedules_non_fadeout :
    (setupAutoresizeTextarea sampleWorld).2 = [⟨0, TimerAction.initialResize⟩]
    ∧ TimerAction.isToastOrStatusFadeOut TimerAction.initialResize = false
    ∧ (runTimerAction TimerAction.initialResize
          (setupAutoresizeTextarea sampleWorld).1).1.userInput
        ≠ (setupAutoresizeTextarea sampleWorld).1.userInput
    ∧ (runTimerAction TimerAction.initialResize
          (setupAutoresizeTextarea sampleWorld).1).1.connectionStatus
        = (setupAutoresizeTextarea sampleWorld).1.connectionStatus
    ∧ (runTimerAction TimerAction.initialResize
          (setupAutoresizeTextarea sampleWorld).1).1.chatStatusMessage
        = (setupAutoresizeTextarea sampleWorld).1.chatStatusMessage
    ∧ (runTimerAction TimerAction.initialResize
          (setupAutoresizeTextarea sampleWorld).1).1.toast
        = (setupAutoresizeTextarea sampleWorld).1.toast := by
  refine ⟨rfl, rfl, ?_, rfl, rfl, rfl⟩
  decide

/-- C4 (amended): the deferred behavior of the file comprises exactly
the toast/status fade-outs (`showConnectionStatus` 3000ms, `showToast`
2000ms, `showChatStatusMessage` 2000ms plus its 300ms hide step), the
0ms textarea resizes scheduled by `setupAutoresizeTextarea` at setup
and by its paste listener, and the 1500ms copy-feedback restorations of
`showCopyCodeFeedback` / `showCopyMessageFeedback`; the `input`
listener and every timer callback other than the chat-status fade
schedule nothing further, and every other modelled operation performs
its mutations synchronously (it is a plain state map returning no
timers). -/
theorem deferred_behavior_enumeration (message ty : String) (w : World)
    (fb : FeedbackButton) (mb : MsgCopyButton) :
    ((showConnectionStatus message ty w).2
      = if w.connectionStatus.isSome ∧ ty = "success"
        then [⟨3000, TimerAction.hideConnectionStatus message⟩] else [])
    ∧ ((showToast message ty w).2 = [⟨2000, TimerAction.hideToast⟩])
    ∧ ((showChatStatusMessage message ty w).2
      = if w.chatStatusMessage.isSome ∧ ty = "success"
        then [⟨2000, TimerAction.chatStatusFade message⟩] else [])
    ∧ ((setupAutoresizeTextarea w).2
      = if w.userInput.isSome then [⟨0, TimerAction.initialResize⟩] else [])
    ∧ ((fireUserInputInput w).2 = [])
    ∧ ((fireUserInputPaste w).2 = []
      ∨ (fireUserInputPaste w).2 = [⟨0, TimerAction.pasteResize⟩])
    ∧ ((showCopyCodeFeedback fb).2
      = [⟨1500, TimerAction.restoreCodeCopyButton fb.innerHTML⟩])
    ∧ (∀ origSVG, mb.svg = some origSVG →
        (showCopyMessageFeedback mb).2
          = [⟨1500, TimerAction.restoreMessageCopyButton origSVG⟩])
    ∧ (mb.svg = none → (showCopyMessageFeedback mb).2 = [])
    ∧ ((runTimerAction (TimerAction.chatStatusFade message) w).2 = []
      ∨ (runTimerAction (TimerAction.chatStatusFade message) w).2
          = [⟨300, TimerAction.chatStatusHide message⟩])
    ∧ ((runTimerAction (TimerAction.hideConnectionStatus message) w).2 = [])
    ∧ ((runTimerAction TimerAction.hideToast w).2 = [])
    ∧ ((runTimerAction TimerAction.initialResize w).2 = [])
    ∧ ((runTimerAction TimerAction.pasteResize w).2 = [])
    ∧ ((runTimerAction (TimerAction.chatStatusHide message) w).2 = []) := by
  refine ⟨?_, rfl, ?_, ?_, ?_, ?_, rfl, ?_, ?_, ?_, rfl, rfl, rfl, rfl, rfl⟩
  · cases hc : w.connectionStatus <;> simp [showConnectionStatus, hc]
  · cases hc : w.chatStatusMessage <;> simp [showChatStatusMessage, hc]
  · cases hc : w.userInput <;> simp [setupAutoresizeTextarea, hc]
  · cases hc : w.userInput <;> simp [fireUserInputInput, hc] <;> split <;> simp
  · cases hc : w.userInput
    · left
      simp [fireUserInputPaste, hc]
    · simp only [fireUserInputPaste, hc]
      split
      · right
        rfl
      · left
        rfl
  · intro origSVG hs
    simp [showCopyMessageFeedback, hs]
  · intro hs
    simp [showCopyMessageFeedback, hs]
  · cases hc : w.chatStatusMessage
    · left
      simp [runTimerAction, hc]
    · right
      simp [runTimerAction, hc]

/-- C4, witness: the enumeration applied to the concrete world and
buttons. -/
theorem deferred_behavior_enumeration_witness :
    (showToast "copied" "success" sampleWorld).2
      = [⟨2000, TimerAction.hideToast⟩]
    ∧ (showCopyCodeFeedback { innerHTML := "orig", disabled := false }).2
      = [⟨1500, TimerAction.restoreCodeCopyButton "orig"⟩] :=
  ⟨(deferred_behavior_enumeration "copied" "success" sampleWorld
      { innerHTML := "orig", disabled := false }
      { svg := none, disabled := false }).2.1,
   (deferred_behavior_enumeration "copied" "success" sampleWorld
      { innerHTML := "orig", disabled := false }
      { svg := none, disabled := false }).2.2.2.2.2.2.1⟩

/-! ## C6: no module state; two-run determinism -/

/-- C6: ui.js holds no module-level mutable state — its would-be module
globals (ui.js:8–11) are commented out, which is why every function of
the file embeds as a pure map on explicit state — and each operation is
deterministic as a two-run property: two calls with identical arguments
and an identical external environment (DOM state, window globals,
translations, callbacks) perform the same mutations and return the same
result. -/
theorem two_run_determinism :
    (∀ tabId (subTabCb : String → TabDom → TabDom) (d₁ d₂ : TabDom),
      d₁ = d₂ → switchTab tabId d₁ subTabCb = switchTab tabId d₂ subTabCb)
    ∧ (∀ subTabId (d₁ d₂ : TabDom), d₁ = d₂ →
        switchSettingsSubTab subTabId d₁ = switchSettingsSubTab subTabId d₂)
    ∧ (∀ message ty (w₁ w₂ : World), w₁ = w₂ →
        showConnectionStatus message ty w₁ = showConnectionStatus message ty w₂)
    ∧ (∀ message ty (w₁ w₂ : World), w₁ = w₂ →
        showChatStatusMessage message ty w₁ = showChatStatusMessage message ty w₂)
    ∧ (∀ message ty (w₁ w₂ : World), w₁ = w₂ →
        showToast message ty w₁ = showToast message ty w₂)
    ∧ (∀ (w₁ w₂ : World), w₁ = w₂ → resizeTextarea w₁ = resizeTextarea w₂)
    ∧ (∀ (w₁ w₂ : World), w₁ = w₂ →
        toggleApiKeyVisibility w₁ = toggleApiKeyVisibility w₂)
    ∧ (∀ translations (w₁ w₂ : World), w₁ = w₂ →
        restoreSendButtonAndInput translations w₁
          = restoreSendButtonAndInput translations w₂)
    ∧ (∀ a (w₁ w₂ : World), w₁ = w₂ → runTimerAction a w₁ = runTimerAction a w₂)
    ∧ (∀ render esc translations content sender images isStreaming
          (newId₁ newId₂ : String), newId₁ = newId₂ →
        addMessageToChatElem render esc translations content sender images
            isStreaming newId₁
          = addMessageToChatElem render esc translations content sender images
            isStreaming newId₂)
    ∧ (∀ render content (m₁ m₂ : MessageElem), m₁ = m₂ →
        updateStreamingMessage render content m₁
          = updateStreamingMessage render content m₂)
    ∧ (∀ render finalContent (m₁ m₂ : MessageElem), m₁ = m₂ →
        finalizeBotMessage render finalContent m₁
          = finalizeBotMessage render finalContent m₂)
    ∧ (∀ translations (b₁ b₂ : CodeBlock), b₁ = b₂ →
        addCopyButtonToCodeBlock translations b₁
          = addCopyButtonToCodeBlock translations b₂)
    ∧ (∀ (m₁ m₂ : MessageElem), m₁ = m₂ →
        addMessageActionButtons m₁ = addMessageActionButtons m₂) := by
  refine ⟨?_, ?_, ?_, ?_, ?_, ?_, ?_, ?_, ?_, ?_, ?_, ?_, ?_, ?_⟩ <;>
    (intros; subst_vars; rfl)

/-- C6, witness: the two-run property at a concrete call. -/
theorem two_run_determinism_witness :
    showConnectionStatus "ready" "info" sampleWorld
      = showConnectionStatus "ready" "info" sampleWorld :=
  two_run_determinism.2.2.1 "ready" "info" sampleWorld sampleWorld rfl

/-! ## C7: the message body is exactly the renderer's output -/

/-- C7: the file never converts markdown itself. For every non-empty
content string the message body HTML is exactly the output of the
opaque external `window.MarkdownRenderer.render` on that content:
`addMessageToChat` (non-streaming) prefixes the images block for a user
message with images and appends the action group after the body
(ui.js:104–109, 124); `updateStreamingMessage` re-appends the preserved
`.message-actions` group and the streaming cursor after the body
(ui.js:144–159); `finalizeBotMessage` re-appends the action group after
the body (ui.js:182–187). `render` is universally quantified, so this
holds whatever the renderer returns. -/
theorem message_body_is_rendered_markdown
    (render esc : String → String) (translations : String → Option String)
    (content : String) (h : content ≠ "") :
    (∀ sender images newId,
      (addMessageToChatElem render esc translations content sender images
          false newId).innerHTML
        = (if sender = "user" ∧ images ≠ []
           then imagesBlockHTML esc translations images else "")
            ++ render content
      ∧ (addMessageToChatElem render esc translations content sender images
          false newId).appended = [MsgNode.messageActions])
    ∧ (∀ m : MessageElem,
        (updateStreamingMessage render content m).innerHTML = render content
        ∧ (updateStreamingMessage render content m).appended
          = (if m.appended.contains MsgNode.messageActions
             then [MsgNode.messageActions] else [])
              ++ [MsgNode.streamingCursor])
    ∧ (∀ m : MessageElem, m.messageId.isSome →
        (finalizeBotMessage render content m).innerHTML = render content
        ∧ (finalizeBotMessage render content m).appended
          = [MsgNode.messageActions]) := by
  refine ⟨?_, ?_, ?_⟩
  · intro sender images newId
    constructor
    · simp [addMessageToChatElem, addMessageActionButtons, h]
    · simp [addMessageToChatElem, addMessageActionButtons, h]
  · intro m
    exact ⟨rfl, rfl⟩
  · intro m hm
    obtain ⟨mid, hmid⟩ := Option.isSome_iff_exists.mp hm
    constructor
    · simp [finalizeBotMessage, addMessageActionButtons, hmid]
    · simp [finalizeBotMessage, addMessageActionButtons, hmid]

/-- C7, witness: a concrete renderer, bot sender, no images. -/
theorem message_body_witness :
    (addMessageToChatElem (fun s => "<p>" ++ s ++ "</p>") id (fun _ => none)
        "hi" "bot" [] false "id1").innerHTML = "<p>hi</p>" := by
  have h := (message_body_is_rendered_markdown (fun s => "<p>" ++ s ++ "</p>")
    id (fun _ => none) "hi" (by decide)).1 "bot" [] "id1"
  simpa using h.1

/-! ## C8: the textarea resize formula -/

/-- C8: `resizeTextarea` sets the textarea's height to
`min(max(scrollHeight, minHeight), maxHeight)` pixels, where `minHeight`
is the parsed CSS `min-height` or 32 when unparsable or zero and
`maxHeight` the parsed CSS `max-height` or 160 when unparsable or zero;
it sets `overflowY` to `'scroll'` iff `scrollHeight > maxHeight` and to
`'hidden'` otherwise; and, given `minHeight ≤ maxHeight`, the resulting
height lies between the two bounds. -/
theorem resizeTextarea_clamps_height (w : World) (ta : Textarea)
    (h : w.userInput = some ta)
    (hmm : jsFloatOr ta.cssMinHeight 32 ≤ jsFloatOr ta.cssMaxHeight 160) :
    (resizeTextarea w).userInput
      = some { ta with
          styleHeight := some (min (max ta.scrollHeight (jsFloatOr ta.cssMinHeight 32)) (jsFloatOr ta.cssMaxHeight 160)),
          overflowY := if ta.scrollHeight > jsFloatOr ta.cssMaxHeight 160 then "scroll" else "hidden" }
    ∧ jsFloatOr ta.cssMinHeight 32
        ≤ min (max ta.scrollHeight (jsFloatOr ta.cssMinHeight 32))
            (jsFloatOr ta.cssMaxHeight 160)
    ∧ min (max ta.scrollHeight (jsFloatOr ta.cssMinHeight 32))
          (jsFloatOr ta.cssMaxHeight 160)
        ≤ jsFloatOr ta.cssMaxHeight 160 := by
  refine ⟨?_, ?_, min_le_right _ _⟩
  · simp only [resizeTextarea, h]
    rw [max_comm]
  · exact le_min (le_max_right _ _) hmm

/-- C8, witness: content height 100 with default bounds gives height
100 and a hidden scrollbar. -/
theorem resizeTextarea_clamps_height_witness :
    (resizeTextarea sampleWorld).userInput
      = some { sampleTextarea with
          styleHeight := some (min (max sampleTextarea.scrollHeight (jsFloatOr sampleTextarea.cssMinHeight 32)) (jsFloatOr sampleTextarea.cssMaxHeight 160)),
          overflowY := if sampleTextarea.scrollHeight > jsFloatOr sampleTextarea.cssMaxHeight 160 then "scroll" else "hidden" } :=
  (resizeTextarea_clamps_height sampleWorld sampleTextarea rfl (by decide)).1

/-! ## C9: the button-adding functions are idempotent -/

/-- How many `.code-copy-button` children a block holds. -/
def CodeBlock.copyButtonCount (b : CodeBlock) : Nat :=
  b.children.countP fun c =>
    match c with
    | BlockChild.codeCopyButton _ => true
    | BlockChild.otherNode _ => false

/-- C9: `addCopyButtonToCodeBlock` and `addMessageActionButtons` are
idempotent at the public interface: when the target already holds a
`.code-copy-button` (resp. `.message-actions`) descendant, a second call
returns it unmodified, so a code block ends up with at most one copy
button and a message with at most one action group; and
`addMessageActionButtons` is a no-op when the element has no
`dataset.messageId`. -/
theorem buttons_idempotent (translations : String → Option String)
    (b : CodeBlock) (m : MessageElem) :
    addCopyButtonToCodeBlock translations (addCopyButtonToCodeBlock translations b)
      = addCopyButtonToCodeBlock translations b
    ∧ (b.hasCopyButton = true → addCopyButtonToCodeBlock translations b = b)
    ∧ (b.copyButtonCount ≤ 1 →
        (addCopyButtonToCodeBlock translations b).copyButtonCount ≤ 1)
    ∧ addMessageActionButtons (addMessageActionButtons m)
        = addMessageActionButtons m
    ∧ (m.appended.contains MsgNode.messageActions = true →
        addMessageActionButtons m = m)
    ∧ (m.appended.count MsgNode.messageActions ≤ 1 →
        (addMessageActionButtons m).appended.count MsgNode.messageActions ≤ 1)
    ∧ (m.messageId = none → addMessageActionButtons m = m) := by
  have hstop : ∀ b' : CodeBlock, b'.hasCopyButton = true →
      addCopyButtonToCodeBlock translations b' = b' := by
    intro b' hb'
    simp [addCopyButtonToCodeBlock, hb']
  have hbtn : (addCopyButtonToCodeBlock translations b).hasCopyButton = true := by
    cases hb : b.hasCopyButton with
    | true => rw [hstop b hb]; exact hb
    | false =>
      rw [addCopyButtonToCodeBlock, if_neg (by simp [hb])]
      simp [CodeBlock.hasCopyButton, List.any_append]
  have hzero : b.hasCopyButton = false → b.copyButtonCount = 0 := by
    intro hb
    simp only [CodeBlock.hasCopyButton, List.any_eq_false] at hb
    simp only [CodeBlock.copyButtonCount, List.countP_eq_zero]
    exact hb
  refine ⟨?_, ?_, ?_, ?_, ?_, ?_, ?_⟩
  · exact hstop _ hbtn
  · exact hstop b
  · intro hc
    cases hb : b.hasCopyButton with
    | true => rw [hstop b hb]; exact hc
    | false =>
      have h0 := hzero hb
      simp only [CodeBlock.copyButtonCount] at h0
      simp [addCopyButtonToCodeBlock, hb, CodeBlock.copyButtonCount,
        List.countP_append, h0]
  · cases hmid : m.messageId with
    | none => simp [addMessageActionButtons, hmid]
    | some mid =>
      by_cases hc : MsgNode.messageActions ∈ m.appended
      · simp [addMessageActionButtons, hmid, hc]
      · have hmem2 : MsgNode.messageActions ∈ m.appended ++ [MsgNode.messageActions] := by
          simp
        simp [addMessageActionButtons, hmid, hc, hmem2]
  · intro hc
    have hmem : MsgNode.messageActions ∈ m.appended := by simpa using hc
    cases hmid : m.messageId with
    | none => simp [addMessageActionButtons, hmid]
    | some mid => simp [addMessageActionButtons, hmid, hmem]
  · intro hc
    cases hmid : m.messageId with
    | none => simpa [addMessageActionButtons, hmid] using hc
    | some mid =>
      by_cases hcon : MsgNode.messageActions ∈ m.appended
      · simpa [addMessageActionButtons, hmid, hcon] using hc
      · have hcount : m.appended.count MsgNode.messageActions = 0 :=
          List.count_eq_zero.mpr hcon
        simp [addMessageActionButtons, hmid, hcon, List.count_append, hcount]
  · intro hmid
    simp [addMessageActionButtons, hmid]

/-- C9, witness: a block with no button gains exactly one, and a second
call changes nothing. -/
theorem buttons_idempotent_witness :
    addCopyButtonToCodeBlock (fun _ => none)
        (addCopyButtonToCodeBlock (fun _ => none) { children := [] })
      = addCopyButtonToCodeBlock (fun _ => none) { children := [] }
    ∧ addMessageActionButtons
        { messageId := none, classes := [], innerHTML := "", appended := [] }
      = { messageId := none, classes := [], innerHTML := "", appended := [] } :=
  ⟨(buttons_idempotent (fun _ => none) { children := [] }
      { messageId := none, classes := [], innerHTML := "", appended := [] }).1,
   (buttons_idempotent (fun _ => none) { children := [] }
      { messageId := none, classes := [], innerHTML := "", appended := [] }).2.2.2.2.2.2
     rfl⟩

/-! ## C10: `restoreSendButtonAndInput` -/

/-- C10: `restoreSendButtonAndInput` establishes
`state.isStreaming === false` after every call; when `state.isStreaming`
is already false it returns immediately leaving everything unchanged;
otherwise it clears the flag, removes the `stop-streaming` class,
restores the send button's title and icon, swaps the abort click
listener for the send listener, clears
`window.GeminiAPI.currentAbortController` exactly when the global exists
and the controller is set, and mutates nothing else (every other field
of the state is carried over unchanged). -/
theorem restoreSendButtonAndInput_spec
    (translations : String → Option String) (w : World) :
    (restoreSendButtonAndInput translations w).isStreaming = false
    ∧ (w.isStreaming = false → restoreSendButtonAndInput translations w = w)
    ∧ (w.isStreaming = true →
        restoreSendButtonAndInput translations w
          = { w with
              isStreaming := false,
              sendMessage :=
                { classes := classListRemove w.sendMessage.classes "stop-streaming",
                  title := translateKey "sendMessageTitle" [] translations,
                  innerHTML := sendButtonSVG,
                  listeners := addListener
                    (removeListener w.sendMessage.listeners "abortStreaming")
                    "sendUserMessage" },
              geminiAPI :=
                (match w.geminiAPI with
                  | some (some _) => some none
                  | g => g) }) := by
  refine ⟨?_, ?_, ?_⟩
  · cases hs : w.isStreaming <;> simp [restoreSendButtonAndInput, hs]
  · intro hs
    simp [restoreSendButtonAndInput, hs]
  · intro hs
    simp [restoreSendButtonAndInput, hs]

/-- C10, witness: on the streaming sample world the flag is cleared, and
on the idle world the call is a no-op. -/
theorem restoreSendButtonAndInput_witness :
    (restoreSendButtonAndInput (fun _ => none) sampleWorld).isStreaming = false
    ∧ restoreSendButtonAndInput (fun _ => none) emptyWorld = emptyWorld :=
  ⟨(restoreSendButtonAndInput_spec (fun _ => none) sampleWorld).1,
   (restoreSendButtonAndInput_spec (fun _ => none) emptyWorld).2.1 rfl⟩
